import Mathlib

/-!
Verification of the task-polling hook (`useTaskPolling`) and the transport
selector component (`WebSocketProviderWrapper`) from
`src/frontend/src/hooks/query/use-task-polling.ts`.

Strings are modelled as `List Char`; JavaScript `undefined`/`null` values are
modelled with `Option`, and JavaScript truthiness of an optional string (both
absence and the empty string are falsy) is modelled by `truthyStr`.
-/

set_option autoImplicit false

namespace TaskPolling

/-- JavaScript strings, modelled as lists of characters. -/
abbrev Str := List Char

/-- JavaScript `s.startsWith(p)`. -/
def jsStartsWith (s p : Str) : Bool :=
  p.isPrefixOf s

/-- JavaScript `s.replace(pat, rep)` for a plain string pattern: replaces the
first occurrence of `pat` in `s` (if any) by `rep`, leaving `s` unchanged when
`pat` does not occur. -/
def replaceFirst (s : Str) (pat rep : Str) : Str :=
  match s with
  | [] => if pat.isPrefixOf ([] : Str) then rep else []
  | c :: rest =>
    if pat.isPrefixOf (c :: rest) then rep ++ (c :: rest).drop pat.length
    else c :: replaceFirst rest pat rep

/-- JavaScript truthiness of an optional string: `undefined`, `null` and the
empty string are falsy. -/
def truthyStr : Option Str → Bool
  | some s => !s.isEmpty
  | none => false

/-- JavaScript `a || b` on optional strings (`a` wins when truthy). -/
def jsOr (a b : Option Str) : Option Str :=
  if truthyStr a then a else b

/-- `pat` occurs in `s` at position `i`. -/
def occursAt (pat s : Str) (i : Nat) : Bool :=
  pat.isPrefixOf (s.drop i)

/-! ### Data model: the start task payload -/

/-- The request echo carried by a start task (`task.request`). -/
structure TaskRequest where
  selected_repository : Option Str
  selected_branch : Option Str
  git_provider : Option Str
deriving DecidableEq

/-- The V1 start-task payload polled by the hook. -/
structure StartTask where
  status : Str
  app_conversation_id : Option Str
  agent_server_url : Option Str
  sandbox_id : Option Str
  detail : Option Str
  request : Option TaskRequest
deriving DecidableEq

/-- The ready status literal `"READY"`. -/
def readyStatus : Str := "READY".toList

/-- The error status literal `"ERROR"`. -/
def errorStatus : Str := "ERROR".toList

/-- The task marker `"task-"` prefixing task identifiers in the route. -/
def taskMarker : Str := "task-".toList

/-! ### The polling hook -/

/-- Result of the `refetchInterval` callback: `stop` models returning `false`
(polling ceases), `interval ms` models returning a number of milliseconds. -/
inductive RefetchResult where
  | stop
  | interval (ms : Nat)
deriving DecidableEq

/-- The `refetchInterval` callback of the task query: stop when there is no
data or the status is READY or ERROR, otherwise poll again in 3000 ms. -/
def refetchInterval (data : Option StartTask) : RefetchResult :=
  match data with
  | none => RefetchResult.stop
  | some task =>
    if task.status = readyStatus ∨ task.status = errorStatus then RefetchResult.stop
    else RefetchResult.interval 3000

/-- `conversationId.startsWith("task-")`. -/
def isTaskParam (conversationId : Str) : Bool :=
  jsStartsWith conversationId taskMarker

/-- `isTask ? conversationId.replace("task-", "") : null`. -/
def taskIdOf (conversationId : Str) : Option Str :=
  if isTaskParam conversationId then some (replaceFirst conversationId taskMarker []) else none

/-- The options given to the task query (`enabled: !!taskId`, `retry: false`). -/
structure TaskQueryOptions where
  enabled : Bool
  retry : Bool
deriving DecidableEq

/-- `enabled: !!taskId, retry: false` from the `useQuery` call: `!!taskId` is
JS truthiness, false for an absent and for an empty task identifier. -/
def taskQueryOptions (taskId : Option Str) : TaskQueryOptions :=
  { enabled := truthyStr taskId, retry := false }

/-- The navigation effect: when the polled task is READY with a truthy
`app_conversation_id`, navigate to `/conversations/{app_conversation_id}`.
Returns the navigation target, or `none` when the effect does not navigate. -/
def navigationEffect (data : Option StartTask) : Option Str :=
  match data with
  | none => none
  | some task =>
    match task.app_conversation_id with
    | none => none
    | some cid =>
      if task.status = readyStatus ∧ cid ≠ [] then
        some ("/conversations/".toList ++ cid)
      else none

/-- The record written to the query cache by the pre-cache effect. -/
structure CachedConversation where
  id : Str
  conversation_url : Str
  session_api_key : Option Str
  sandbox_id : Option Str
deriving DecidableEq

/-- The pre-cache effect: when the polled task is READY with truthy
`app_conversation_id` and `agent_server_url`, write the conversation record to
the cache. Returns the record written, or `none` when nothing is written. -/
def cacheEffect (data : Option StartTask) : Option CachedConversation :=
  match data with
  | none => none
  | some task =>
    match task.app_conversation_id, task.agent_server_url with
    | some cid, some url =>
      if task.status = readyStatus ∧ cid ≠ [] ∧ url ≠ [] then
        some { id := cid, conversation_url := url, session_api_key := none,
               sandbox_id := task.sandbox_id }
      else none
    | _, _ => none

/-- The query state the hook reads back from `useQuery`. -/
structure QueryResult where
  data : Option StartTask
  error : Option Str
  isLoading : Bool
deriving DecidableEq

/-- The `repositoryInfo` record returned by the hook. -/
structure RepositoryInfo where
  selectedRepository : Option Str
  selectedBranch : Option Str
  gitProvider : Option Str
deriving DecidableEq

/-- The record returned by `useTaskPolling`. -/
structure TaskPollingResult where
  isTask : Bool
  taskId : Option Str
  conversationId : Option Str
  task : Option StartTask
  taskStatus : Option Str
  taskDetail : Option Str
  taskError : Option Str
  isLoadingTask : Bool
  repositoryInfo : RepositoryInfo
deriving DecidableEq

/-- The pure part of the `useTaskPolling` hook: given the route parameter and
the current task-query state, the record it returns. -/
def useTaskPolling (conversationId : Str) (taskQuery : QueryResult) : TaskPollingResult :=
  let isTask := isTaskParam conversationId
  { isTask := isTask
    taskId := taskIdOf conversationId
    conversationId := if isTask then none else some conversationId
    task := taskQuery.data
    taskStatus := taskQuery.data.map (fun t => t.status)
    taskDetail := taskQuery.data.bind (fun t => t.detail)
    taskError := taskQuery.error
    isLoadingTask := taskQuery.isLoading
    repositoryInfo :=
      { selectedRepository :=
          (taskQuery.data.bind (fun t => t.request)).bind (fun r => r.selected_repository)
        selectedBranch :=
          (taskQuery.data.bind (fun t => t.request)).bind (fun r => r.selected_branch)
        gitProvider :=
          (taskQuery.data.bind (fun t => t.request)).bind (fun r => r.git_provider) } }

/-! ### Render traces: when do the effects fire?

Both effects are `useEffect`s depending on `taskQuery.data`: the effect body
runs on the first render and again whenever the data value changes.  A trace
records the successive values of `taskQuery.data`; a trace is valid when the
data only changes while the scheduler is still polling (once `refetchInterval`
says stop, the data is frozen). -/

/-- `validFrom prev tr`: after a render with data `prev`, the data values in
`tr` follow, each step either repeating the previous value, or loading data for
the first time (`prev = none`: the initial fetch is not governed by
`refetchInterval`), or occurring while the scheduler still polls the previous
value. -/
def validFrom (prev : Option StartTask) : List (Option StartTask) → Bool
  | [] => true
  | d :: rest =>
    (decide (d = prev) || decide (prev = none) ||
      decide (refetchInterval prev ≠ RefetchResult.stop)) && validFrom d rest

/-- A valid trace of data values observed across renders. -/
def validTrace : List (Option StartTask) → Bool
  | [] => true
  | d :: rest => validFrom d rest

/-- Number of firings of an effect (with firing predicate `eff`) over the tail
of a trace, given the previously rendered data value: the effect body re-runs
exactly when the data changed. -/
def effectFiringsFrom (eff : Option StartTask → Bool) (prev : Option StartTask) :
    List (Option StartTask) → Nat
  | [] => 0
  | d :: rest => (if d ≠ prev ∧ eff d = true then 1 else 0) + effectFiringsFrom eff d rest

/-- Number of firings of an effect over a whole trace: the effect body runs on
the first render and then on every change of the data value. -/
def effectFirings (eff : Option StartTask → Bool) : List (Option StartTask) → Nat
  | [] => 0
  | d :: rest => (if eff d = true then 1 else 0) + effectFiringsFrom eff d rest

/-- The navigation effect fires on data `d`. -/
def navFired (d : Option StartTask) : Bool :=
  (navigationEffect d).isSome

/-- The pre-cache effect fires on data `d`. -/
def cacheFired (d : Option StartTask) : Bool :=
  (cacheEffect d).isSome

/-! ### The transport selector component -/

/-- A sub-conversation record as read by the wrapper. -/
structure SubConversation where
  id : Str
  conversation_url : Option Str
  session_api_key : Option Str
deriving DecidableEq

/-- The active conversation record as read by the wrapper. -/
structure Conversation where
  url : Option Str
  session_api_key : Option Str
  sub_conversation_ids : Option (List Str)
deriving DecidableEq

/-- What the wrapper renders: the v0 provider (`WsClientProvider`) or the v1
provider (`ConversationWebSocketProvider`) together with the props passed. -/
inductive Rendered where
  | wsClient (conversationId : Str)
  | conversationWS (conversationId : Str) (conversationUrl : Str)
      (sessionApiKey : Option Str) (subConversationIds : Option (List Str))
      (subConversations : Option (List SubConversation))
deriving DecidableEq

/-- How rendering can fail: the JavaScript `TypeError` raised by calling
`.replace` on an undefined URL, or the explicit unsupported-version `Error`. -/
inductive RenderError where
  | typeErrorUndefinedReplace
  | unsupportedVersion (version : Int)
deriving DecidableEq

/-- The hostname literal `"localhost"` replaced by the wrapper. -/
def localhostLit : Str := "localhost".toList

/-- The replacement host literal `"sheepintry.com"`. -/
def replacementHost : Str := "sheepintry.com".toList

/-- `subConversations?.filter(c => c !== null)`. -/
def filteredSubConversations (subConversations : Option (List (Option SubConversation))) :
    Option (List SubConversation) :=
  subConversations.map (fun l => l.filterMap id)

/-- `filteredSubConversations?.find(conv => conv.id === conversationId)`. -/
def v1AppConversationOf (filtered : Option (List SubConversation)) (conversationId : Str) :
    Option SubConversation :=
  filtered.bind (fun l => l.find? (fun conv => conv.id = conversationId))

/-- The `WebSocketProviderWrapper` component: `version` selects the provider;
`conversation` and `subConversations` are the data supplied by the
`useActiveConversation` and `useSubConversations` collaborators. -/
def WebSocketProviderWrapper (version : Int) (conversationId : Str)
    (conversation : Option Conversation)
    (subConversations : Option (List (Option SubConversation))) :
    Except RenderError Rendered :=
  let filtered := filteredSubConversations subConversations
  if version = 0 then
    Except.ok (Rendered.wsClient conversationId)
  else if version = 1 then
    let v1AppConversation := v1AppConversationOf filtered conversationId
    let v1ConversationUrl :=
      jsOr (v1AppConversation.bind (fun c => c.conversation_url))
        (conversation.bind (fun c => c.url))
    let v1SessionApiKey :=
      jsOr (v1AppConversation.bind (fun c => c.session_api_key))
        (conversation.bind (fun c => c.session_api_key))
    match v1ConversationUrl with
    | none => Except.error RenderError.typeErrorUndefinedReplace
    | some url =>
      Except.ok (Rendered.conversationWS conversationId
        (replaceFirst url localhostLit replacementHost)
        v1SessionApiKey
        (conversation.bind (fun c => c.sub_conversation_ids))
        filtered)
  else
    Except.error (RenderError.unsupportedVersion version)

/-! ### Helper lemmas -/

theorem replaceFirst_of_isPrefixOf (s pat rep : Str) (h : pat.isPrefixOf s = true) :
    replaceFirst s pat rep = rep ++ s.drop pat.length := by
  cases s with
  | nil => simp [replaceFirst, h]
  | cons c rest => simp [replaceFirst, h]

theorem replaceFirst_of_no_occ (pat rep : Str) :
    ∀ s : Str, (∀ i, occursAt pat s i = false) → replaceFirst s pat rep = s := by
  intro s
  induction s with
  | nil =>
    intro h
    have h0 := h 0
    simp only [occursAt, List.drop_nil] at h0
    simp [replaceFirst, h0]
  | cons c rest ih =>
    intro h
    have h0 := h 0
    simp only [occursAt, List.drop_zero] at h0
    simp only [replaceFirst, h0, Bool.false_eq_true, if_false, List.cons.injEq, true_and]
    exact ih (fun i => by simpa [occursAt] using h (i + 1))

theorem replaceFirst_first_occ (pat rep : Str) (hne : pat ≠ []) :
    ∀ (i : Nat) (s : Str), occursAt pat s i = true →
      (∀ j, j < i → occursAt pat s j = false) →
      replaceFirst s pat rep = s.take i ++ rep ++ s.drop (i + pat.length) := by
  intro i
  induction i with
  | zero =>
    intro s h1 _
    have h1' : pat.isPrefixOf s = true := by simpa [occursAt] using h1
    simp [replaceFirst_of_isPrefixOf s pat rep h1']
  | succ i ih =>
    intro s h1 h2
    cases s with
    | nil =>
      exfalso
      cases pat with
      | nil => exact hne rfl
      | cons p ps => simp [occursAt, List.isPrefixOf] at h1
    | cons c rest =>
      have h0 : pat.isPrefixOf (c :: rest) = false := by
        simpa [occursAt] using h2 0 (Nat.succ_pos i)
      have hrec := ih rest (by simpa [occursAt] using h1)
        (fun j hj => by simpa [occursAt] using h2 (j + 1) (Nat.succ_lt_succ hj))
      have harith : i + 1 + pat.length = i + pat.length + 1 :=
        Nat.add_right_comm i 1 pat.length
      rw [harith]
      simp [replaceFirst, h0, hrec, List.take_succ_cons, List.drop_succ_cons]

theorem navFired_iff (t : StartTask) :
    navFired (some t) = true ↔
      (t.status = readyStatus ∧ ∃ cid, t.app_conversation_id = some cid ∧ cid ≠ []) := by
  cases hcid : t.app_conversation_id with
  | none => simp [navFired, navigationEffect, hcid]
  | some cid =>
    simp only [navFired, navigationEffect, hcid]
    by_cases hc : t.status = readyStatus ∧ cid ≠ [] <;> simp [hc]

theorem cacheFired_iff (t : StartTask) :
    cacheFired (some t) = true ↔
      (t.status = readyStatus ∧ (∃ cid, t.app_conversation_id = some cid ∧ cid ≠ []) ∧
        (∃ url, t.agent_server_url = some url ∧ url ≠ [])) := by
  cases hcid : t.app_conversation_id with
  | none => simp [cacheFired, cacheEffect, hcid]
  | some cid =>
    cases hurl : t.agent_server_url with
    | none => simp [cacheFired, cacheEffect, hcid, hurl]
    | some url =>
      simp only [cacheFired, cacheEffect, hcid, hurl]
      by_cases hc : t.status = readyStatus ∧ cid ≠ [] ∧ url ≠ [] <;> simp [hc]

theorem navFired_stop (d : Option StartTask) (h : navFired d = true) :
    refetchInterval d = RefetchResult.stop := by
  cases d with
  | none => simp [navFired, navigationEffect] at h
  | some t =>
    have hs := ((navFired_iff t).mp h).1
    simp [refetchInterval, hs]

theorem cacheFired_stop (d : Option StartTask) (h : cacheFired d = true) :
    refetchInterval d = RefetchResult.stop := by
  cases d with
  | none => simp [cacheFired, cacheEffect] at h
  | some t =>
    have hs := ((cacheFired_iff t).mp h).1
    simp [refetchInterval, hs]

theorem effectFiringsFrom_eq (eff : Option StartTask → Bool)
    (hstop : ∀ d, eff d = true → refetchInterval d = RefetchResult.stop)
    (hnone : eff none = false) :
    ∀ (tr : List (Option StartTask)) (prev : Option StartTask),
      validFrom prev tr = true →
      effectFiringsFrom eff prev tr =
        if eff prev = true then 0 else if tr.any eff = true then 1 else 0 := by
  intro tr
  induction tr with
  | nil =>
    intro prev _
    simp [effectFiringsFrom]
  | cons d rest ih =>
    intro prev hv
    simp only [validFrom, Bool.and_eq_true, Bool.or_eq_true, decide_eq_true_eq] at hv
    obtain ⟨hstep, hrest⟩ := hv
    by_cases hp : eff prev = true
    · have hd : d = prev := by
        rcases hstep with (h | h) | h
        · exact h
        · rw [h, hnone] at hp
          exact absurd hp (by decide)
        · exact absurd (hstop prev hp) h
      subst hd
      rw [if_pos hp]
      simp only [effectFiringsFrom]
      have h0 := ih d hrest
      rw [if_pos hp] at h0
      simp [h0]
    · rw [if_neg hp]
      simp only [effectFiringsFrom]
      by_cases hd : eff d = true
      · have hne : d ≠ prev := by
          intro h
          rw [h] at hd
          exact hp hd
        have h0 := ih d hrest
        rw [if_pos hd] at h0
        simp [List.any_cons, hne, hd, h0]
      · have h0 := ih d hrest
        rw [if_neg hd] at h0
        simp [List.any_cons, hd, h0]

theorem effectFirings_eq (eff : Option StartTask → Bool)
    (hstop : ∀ d, eff d = true → refetchInterval d = RefetchResult.stop)
    (hnone : eff none = false)
    (tr : List (Option StartTask)) (h : validTrace tr = true) :
    effectFirings eff tr = if tr.any eff = true then 1 else 0 := by
  cases tr with
  | nil => simp [effectFirings]
  | cons d rest =>
    simp only [validTrace] at h
    have h0 := effectFiringsFrom_eq eff hstop hnone rest d h
    simp only [effectFirings]
    by_cases hd : eff d = true
    · rw [if_pos hd] at h0
      simp [List.any_cons, hd, h0]
    · rw [if_neg hd] at h0
      simp [List.any_cons, hd, h0]

/-! ### Claims -/

/-- C1: for every present polled task value, the scheduler stops exactly when
the task's status is the ready state ("READY") or the error state ("ERROR"),
and returns the 3000 ms interval for every other status value. -/
theorem claim_refetch_stops_iff_terminal :
    ∀ t : StartTask,
      (refetchInterval (some t) = RefetchResult.stop ↔
        (t.status = readyStatus ∨ t.status = errorStatus)) ∧
      (t.status ≠ readyStatus → t.status ≠ errorStatus →
        refetchInterval (some t) = RefetchResult.interval 3000) := by
  intro t
  constructor
  · by_cases hc : t.status = readyStatus ∨ t.status = errorStatus <;>
      simp [refetchInterval, hc]
  · intro h1 h2
    simp [refetchInterval, h1, h2]

/-- Witness for C1: a concrete in-progress task keeps the 3000 ms interval. -/
theorem claim_refetch_stops_iff_terminal_witness :
    refetchInterval (some ⟨"RUNNING".toList, none, none, none, none, none⟩) =
      RefetchResult.interval 3000 :=
  (claim_refetch_stops_iff_terminal ⟨"RUNNING".toList, none, none, none, none, none⟩).2
    (by decide) (by decide)

/-- C4: a route parameter starting with the task marker "task-" yields exactly
the remainder after that prefix as the extracted task identifier (even when the
remainder contains further occurrences of "task-"); a parameter not starting
with the prefix yields a null task identifier. -/
theorem claim_taskId_extraction :
    ∀ s : Str,
      (taskMarker.isPrefixOf s = true → taskIdOf s = some (s.drop taskMarker.length)) ∧
      (taskMarker.isPrefixOf s = false → taskIdOf s = none) := by
  intro s
  constructor
  · intro h
    have hr := replaceFirst_of_isPrefixOf s taskMarker [] h
    simp [taskIdOf, isTaskParam, jsStartsWith, h, hr]
  · intro h
    simp [taskIdOf, isTaskParam, jsStartsWith, h]

/-- Witness for C4: a parameter whose remainder contains a further "task-"
occurrence, and a parameter without the prefix. -/
theorem claim_taskId_extraction_witness :
    taskIdOf "task-abc-task-def".toList =
        some ("task-abc-task-def".toList.drop taskMarker.length) ∧
    "task-abc-task-def".toList.drop taskMarker.length = "abc-task-def".toList ∧
    taskIdOf "abc".toList = none :=
  ⟨(claim_taskId_extraction "task-abc-task-def".toList).1 (by decide),
   by decide,
   (claim_taskId_extraction "abc".toList).2 (by decide)⟩

/-- C5: a task fetch failure is surfaced as the taskError field of the hook's
returned record, and the retry policy of the task query is disabled. -/
theorem claim_taskError_surfaced_no_retry :
    ∀ (p : Str) (q : QueryResult) (e : Str) (tid : Option Str),
      q.error = some e →
      (useTaskPolling p q).taskError = some e ∧ (taskQueryOptions tid).retry = false := by
  intro p q e tid h
  exact ⟨by simp [useTaskPolling, h], rfl⟩

/-- Witness for C5: a concrete failed query state. -/
theorem claim_taskError_surfaced_no_retry_witness :
    (useTaskPolling "abc".toList ⟨none, some "boom".toList, false⟩).taskError =
        some "boom".toList ∧
    (taskQueryOptions none).retry = false :=
  claim_taskError_surfaced_no_retry "abc".toList ⟨none, some "boom".toList, false⟩
    "boom".toList none rfl

/-- C9: exactly one of the hook's taskId and conversationId fields is non-null:
with the task prefix, taskId is the extracted identifier and conversationId is
null; otherwise taskId is null and conversationId is the parameter unchanged. -/
theorem claim_taskId_conversationId_exclusive :
    ∀ (p : Str) (q : QueryResult),
      (taskMarker.isPrefixOf p = true ∧
        (useTaskPolling p q).taskId = some (p.drop taskMarker.length) ∧
        (useTaskPolling p q).conversationId = none) ∨
      (taskMarker.isPrefixOf p = false ∧
        (useTaskPolling p q).taskId = none ∧
        (useTaskPolling p q).conversationId = some p) := by
  intro p q
  cases h : taskMarker.isPrefixOf p with
  | true =>
    left
    refine ⟨rfl, ?_, ?_⟩
    · have hr := replaceFirst_of_isPrefixOf p taskMarker [] h
      simp [useTaskPolling, taskIdOf, isTaskParam, jsStartsWith, h, hr]
    · simp [useTaskPolling, isTaskParam, jsStartsWith, h]
  | false =>
    right
    refine ⟨rfl, ?_, ?_⟩
    · simp [useTaskPolling, taskIdOf, isTaskParam, jsStartsWith, h]
    · simp [useTaskPolling, isTaskParam, jsStartsWith, h]

/-- C10: every record written by the pre-cache effect has session_api_key
null, id equal to the task's app_conversation_id, conversation_url equal to the
task's agent_server_url, and sandbox_id equal to the task's sandbox_id; and a
ready task without an agent_server_url writes nothing. -/
theorem claim_cache_record_fields :
    ∀ t : StartTask,
      (∀ rec, cacheEffect (some t) = some rec →
        t.app_conversation_id = some rec.id ∧
        t.agent_server_url = some rec.conversation_url ∧
        rec.session_api_key = none ∧
        rec.sandbox_id = t.sandbox_id) ∧
      (t.status = readyStatus → t.agent_server_url = none →
        cacheEffect (some t) = none) := by
  intro t
  constructor
  · intro rec h
    cases hcid : t.app_conversation_id with
    | none => simp [cacheEffect, hcid] at h
    | some cid =>
      cases hurl : t.agent_server_url with
      | none => simp [cacheEffect, hcid, hurl] at h
      | some url =>
        simp only [cacheEffect, hcid, hurl] at h
        by_cases hc : t.status = readyStatus ∧ cid ≠ [] ∧ url ≠ []
        · rw [if_pos hc] at h
          cases h
          exact ⟨rfl, rfl, rfl, rfl⟩
        · rw [if_neg hc] at h
          cases h
  · intro _ hurl
    cases hcid : t.app_conversation_id with
    | none => simp [cacheEffect, hcid]
    | some cid => simp [cacheEffect, hcid, hurl]

/-- Witness for C10: a concrete ready task with all fields present writes the
expected record, and a concrete ready task without agent_server_url writes
nothing. -/
theorem claim_cache_record_fields_witness :
    ((⟨"READY".toList, some "c".toList, some "u".toList, some "s".toList, none, none⟩ :
        StartTask).app_conversation_id =
      some (⟨"c".toList, "u".toList, none, some "s".toList⟩ : CachedConversation).id ∧
     (⟨"READY".toList, some "c".toList, some "u".toList, some "s".toList, none, none⟩ :
        StartTask).agent_server_url =
      some (⟨"c".toList, "u".toList, none, some "s".toList⟩ : CachedConversation).conversation_url ∧
     (⟨"c".toList, "u".toList, none, some "s".toList⟩ : CachedConversation).session_api_key = none ∧
     (⟨"c".toList, "u".toList, none, some "s".toList⟩ : CachedConversation).sandbox_id =
      (⟨"READY".toList, some "c".toList, some "u".toList, some "s".toList, none, none⟩ :
        StartTask).sandbox_id) ∧
    cacheEffect (some ⟨"READY".toList, some "c".toList, none, none, none, none⟩) = none :=
  ⟨(claim_cache_record_fields
      ⟨"READY".toList, some "c".toList, some "u".toList, some "s".toList, none, none⟩).1
      ⟨"c".toList, "u".toList, none, some "s".toList⟩ (by decide),
   (claim_cache_record_fields
      ⟨"READY".toList, some "c".toList, none, none, none, none⟩).2 rfl rfl⟩

/-- C2: over every valid render trace, the navigation effect fires exactly
once when some observed task value is READY with a truthy conversation
identifier, and zero times otherwise; and whenever it fires, its target is
"/conversations/{app_conversation_id}" of a READY task. -/
theorem claim_navigation_fires_once :
    (∀ tr, validTrace tr = true →
      effectFirings navFired tr = if tr.any navFired = true then 1 else 0) ∧
    (∀ t path, navigationEffect (some t) = some path →
      t.status = readyStatus ∧ ∃ cid, t.app_conversation_id = some cid ∧ cid ≠ [] ∧
        path = "/conversations/".toList ++ cid) := by
  constructor
  · intro tr h
    exact effectFirings_eq navFired navFired_stop rfl tr h
  · intro t path h
    cases hcid : t.app_conversation_id with
    | none => simp [navigationEffect, hcid] at h
    | some cid =>
      simp only [navigationEffect, hcid] at h
      by_cases hc : t.status = readyStatus ∧ cid ≠ []
      · rw [if_pos hc] at h
        cases h
        exact ⟨hc.1, cid, rfl, hc.2, rfl⟩
      · rw [if_neg hc] at h
        cases h

/-- Witness for C2: a concrete trace (initial load, in-progress poll, READY
result) on which navigation fires exactly once, and the fired target. -/
theorem claim_navigation_fires_once_witness :
    validTrace [none,
      some ⟨"RUNNING".toList, none, none, none, none, none⟩,
      some ⟨"READY".toList, some "c".toList, some "u".toList, none, none, none⟩] = true ∧
    effectFirings navFired [none,
      some ⟨"RUNNING".toList, none, none, none, none, none⟩,
      some ⟨"READY".toList, some "c".toList, some "u".toList, none, none, none⟩] =
      (if [none,
        some ⟨"RUNNING".toList, none, none, none, none, none⟩,
        some (⟨"READY".toList, some "c".toList, some "u".toList, none, none,
          none⟩ : StartTask)].any navFired = true then 1 else 0) ∧
    ((⟨"READY".toList, some "c".toList, some "u".toList, none, none, none⟩ :
        StartTask).status = readyStatus ∧
      ∃ cid, (⟨"READY".toList, some "c".toList, some "u".toList, none, none, none⟩ :
        StartTask).app_conversation_id = some cid ∧ cid ≠ [] ∧
        "/conversations/c".toList = "/conversations/".toList ++ cid) :=
  ⟨by decide,
   claim_navigation_fires_once.1 [none,
      some ⟨"RUNNING".toList, none, none, none, none, none⟩,
      some ⟨"READY".toList, some "c".toList, some "u".toList, none, none, none⟩]
     (by decide),
   claim_navigation_fires_once.2
     ⟨"READY".toList, some "c".toList, some "u".toList, none, none, none⟩
     "/conversations/c".toList (by decide)⟩

/-- C6 counterexample: a READY task carrying app_conversation_id "c" but no
agent_server_url makes the navigation effect fire while the cache write does
not, so the two effects do not share the same firing condition. -/
theorem claim_cache_nav_counterexample :
    navigationEffect (some ⟨"READY".toList, some "c".toList, none, none, none, none⟩) =
      some "/conversations/c".toList ∧
    cacheEffect (some ⟨"READY".toList, some "c".toList, none, none, none, none⟩) =
      none := by
  constructor <;> decide

/-- C6 (amended): the cache write fires exactly when the navigation fires and
the task's agent_server_url is additionally truthy; like the navigation, the
cache write fires at most once (exactly once when some observed task value
satisfies its condition) over every valid render trace. -/
theorem claim_cache_nav_same_condition :
    (∀ d : Option StartTask,
      cacheFired d = true ↔
        (navFired d = true ∧ truthyStr (d.bind (fun t => t.agent_server_url)) = true)) ∧
    (∀ tr, validTrace tr = true →
      effectFirings cacheFired tr = if tr.any cacheFired = true then 1 else 0) := by
  constructor
  · intro d
    cases d with
    | none => simp [cacheFired, cacheEffect, navFired, navigationEffect, truthyStr]
    | some t =>
      rw [cacheFired_iff, navFired_iff]
      have hu : truthyStr t.agent_server_url = true ↔
          ∃ url, t.agent_server_url = some url ∧ url ≠ [] := by
        cases hurl : t.agent_server_url with
        | none => simp [truthyStr]
        | some url => simp [truthyStr]
      simp only [Option.some_bind]
      rw [hu]
      tauto
  · intro tr h
    exact effectFirings_eq cacheFired cacheFired_stop rfl tr h

/-- Witness for C6 (amended): a concrete trace ending in a fully populated
READY task, on which the cache write fires exactly once. -/
theorem claim_cache_nav_same_condition_witness :
    validTrace [none,
      some ⟨"PENDING".toList, none, none, none, none, none⟩,
      some ⟨"READY".toList, some "c2".toList, some "u2".toList, some "s2".toList,
        none, none⟩] = true ∧
    effectFirings cacheFired [none,
      some ⟨"PENDING".toList, none, none, none, none, none⟩,
      some ⟨"READY".toList, some "c2".toList, some "u2".toList, some "s2".toList,
        none, none⟩] =
      (if [none,
        some ⟨"PENDING".toList, none, none, none, none, none⟩,
        some (⟨"READY".toList, some "c2".toList, some "u2".toList, some "s2".toList,
          none, none⟩ : StartTask)].any cacheFired = true then 1 else 0) :=
  ⟨by decide,
   claim_cache_nav_same_condition.2 [none,
      some ⟨"PENDING".toList, none, none, none, none, none⟩,
      some ⟨"READY".toList, some "c2".toList, some "u2".toList, some "s2".toList,
        none, none⟩] (by decide)⟩

/-- C3: for every version other than 0 and 1, the wrapper raises the
unsupported-version error and mounts no provider. -/
theorem claim_unsupported_version_throws :
    ∀ (v : Int) (cid : Str) (cc : Option Conversation)
      (subs : Option (List (Option SubConversation))),
      v ≠ 0 → v ≠ 1 →
      WebSocketProviderWrapper v cid cc subs =
        Except.error (RenderError.unsupportedVersion v) := by
  intro v cid cc subs h0 h1
  simp [WebSocketProviderWrapper, h0, h1]

/-- Witness for C3: version 2 raises the unsupported-version error. -/
theorem claim_unsupported_version_throws_witness :
    WebSocketProviderWrapper 2 [] none none =
      Except.error (RenderError.unsupportedVersion 2) :=
  claim_unsupported_version_throws 2 [] none none (by decide) (by decide)

/-- C7 counterexample: with version 1, a matching sub-conversation without a
conversation_url and a conversation without a url, the URL computation fails
(the JavaScript TypeError of calling replace on undefined), contradicting the
claim that it does not fail. -/
theorem claim_wrapper_url_absent_counterexample :
    WebSocketProviderWrapper 1 "c".toList
      (some ⟨none, none, none⟩) (some [some ⟨"c".toList, none, none⟩]) =
      Except.error RenderError.typeErrorUndefinedReplace := rfl

/-- C7 (amended): for version 1 the wrapper mounts the live-transport provider
only when a resolved connection URL is available; whenever the resolution of
the matching sub-conversation's conversation_url and the conversation's url
yields nothing, the URL computation fails with a TypeError and no provider is
mounted. -/
theorem claim_wrapper_v1_requires_url :
    ∀ (cid : Str) (cc : Option Conversation)
      (subs : Option (List (Option SubConversation))),
      jsOr ((v1AppConversationOf (filteredSubConversations subs) cid).bind
          (fun c => c.conversation_url))
        (cc.bind (fun c => c.url)) = none →
      WebSocketProviderWrapper 1 cid cc subs =
        Except.error RenderError.typeErrorUndefinedReplace := by
  intro cid cc subs h
  have h0 : ¬ ((1 : Int) = 0) := by decide
  simp only [WebSocketProviderWrapper, if_neg h0, if_pos (rfl : (1 : Int) = 1), h,
    if_true]

/-- Witness for C7 (amended): concrete collaborator data with both URLs
absent. -/
theorem claim_wrapper_v1_requires_url_witness :
    WebSocketProviderWrapper 1 "c7".toList (some ⟨none, some "k".toList, none⟩)
      (some [some ⟨"c7".toList, none, none⟩]) =
      Except.error RenderError.typeErrorUndefinedReplace :=
  claim_wrapper_v1_requires_url "c7".toList (some ⟨none, some "k".toList, none⟩)
    (some [some ⟨"c7".toList, none, none⟩]) (by decide)

/-- C8: for version 1, the connection URL passed to the mounted provider is the
resolved conversation URL with its first occurrence of "localhost" replaced by
"sheepintry.com"; a URL without any occurrence of "localhost" passes through
unchanged. -/
theorem claim_host_substitution :
    ∀ (cid : Str) (cc : Option Conversation)
      (subs : Option (List (Option SubConversation))) (url : Str),
      jsOr ((v1AppConversationOf (filteredSubConversations subs) cid).bind
          (fun c => c.conversation_url))
        (cc.bind (fun c => c.url)) = some url →
      ∃ passed key ids f,
        WebSocketProviderWrapper 1 cid cc subs =
          Except.ok (Rendered.conversationWS cid passed key ids f) ∧
        ((∀ i, occursAt localhostLit url i = false) → passed = url) ∧
        (∀ i, occursAt localhostLit url i = true →
          (∀ j, j < i → occursAt localhostLit url j = false) →
          passed = url.take i ++ replacementHost ++ url.drop (i + localhostLit.length)) := by
  intro cid cc subs url h
  refine ⟨replaceFirst url localhostLit replacementHost,
    jsOr ((v1AppConversationOf (filteredSubConversations subs) cid).bind
        (fun c => c.session_api_key))
      (cc.bind (fun c => c.session_api_key)),
    cc.bind (fun c => c.sub_conversation_ids),
    filteredSubConversations subs, ?_, ?_, ?_⟩
  · have h0 : ¬ ((1 : Int) = 0) := by decide
    simp only [WebSocketProviderWrapper, if_neg h0, if_pos (rfl : (1 : Int) = 1), h,
      if_true]
  · intro hno
    exact replaceFirst_of_no_occ localhostLit replacementHost url hno
  · intro i h1 h2
    exact replaceFirst_first_occ localhostLit replacementHost (by decide) i url h1 h2

/-- Witness for C8: a concrete conversation URL containing "localhost". -/
theorem claim_host_substitution_witness :
    ∃ passed key ids f,
      WebSocketProviderWrapper 1 "c8".toList
        (some ⟨some "ws://localhost:3000/x".toList, some "k".toList, none⟩) none =
        Except.ok (Rendered.conversationWS "c8".toList passed key ids f) ∧
      ((∀ i, occursAt localhostLit "ws://localhost:3000/x".toList i = false) →
        passed = "ws://localhost:3000/x".toList) ∧
      (∀ i, occursAt localhostLit "ws://localhost:3000/x".toList i = true →
        (∀ j, j < i → occursAt localhostLit "ws://localhost:3000/x".toList j = false) →
        passed = "ws://localhost:3000/x".toList.take i ++ replacementHost ++
          "ws://localhost:3000/x".toList.drop (i + localhostLit.length)) :=
  claim_host_substitution "c8".toList
    (some ⟨some "ws://localhost:3000/x".toList, some "k".toList, none⟩) none
    "ws://localhost:3000/x".toList (by decide)

end TaskPolling
